import Mathlib

/-!
Shallow embedding of the payment orchestration service (src/main.py):
the fee engine (calculate_fee), the checkout recommendation loop
(create_checkout), the ledger operations (create/get/update transaction)
and the success-rate aggregation (get_success_rate_from_db).
Python floats are modelled as exact rationals; database rows as a list of
records; timestamps as integers (epoch seconds).
-/

namespace PaymentOrchestration

/-- One fee bracket of the fee_configs table inside calculate_fee:
a (min_amount, max_amount, percentage) triple; maxAmount = none encodes the
Python float inf upper bound. -/
structure Bracket where
  minAmount : ℚ
  maxAmount : Option ℚ
  percentage : ℚ
deriving DecidableEq

/-- Upper-bound half of the range test: amount <= max_amount, with the
unbounded case (float inf) always true. -/
def ubOk : Option ℚ → ℚ → Prop
  | none, _ => True
  | some u, a => a ≤ u

instance decUbOk : (ub : Option ℚ) → (a : ℚ) → Decidable (ubOk ub a)
  | none, _ => isTrue trivial
  | some u, a => inferInstanceAs (Decidable (a ≤ u))

/-- The Python range test min_amount <= amount <= max_amount. -/
def Bracket.containsAmt (b : Bracket) (a : ℚ) : Prop :=
  b.minAmount ≤ a ∧ ubOk b.maxAmount a

instance (b : Bracket) (a : ℚ) : Decidable (b.containsAmt a) :=
  inferInstanceAs (Decidable (_ ∧ _))

/-- fee_configs for debit_card. -/
def debitCardRanges : List Bracket := [⟨0, some 2000, 0⟩, ⟨2000.01, none, 0.5⟩]

/-- fee_configs for credit_card. -/
def creditCardRanges : List Bracket := [⟨0, some 25000, 0.1⟩, ⟨25000.01, none, 0.5⟩]

/-- fee_configs for netbanking. -/
def netbankingRanges : List Bracket :=
  [⟨0, some 10000, 0⟩, ⟨10000.01, some 50000, 0.75⟩, ⟨50000.01, none, 1⟩]

/-- fee_configs for upi. -/
def upiRanges : List Bracket := [⟨0, none, 0⟩]

/-- fee_configs.get(payment_mode, fee_configs of upi): unknown modes fall
back to the upi schedule. -/
def feeConfigs (mode : String) : List Bracket :=
  if mode = "debit_card" then debitCardRanges
  else if mode = "credit_card" then creditCardRanges
  else if mode = "netbanking" then netbankingRanges
  else upiRanges

/-- The scan loop of calculate_fee: the first bracket containing the amount
supplies the percentage; the initial value 0.0 survives if none matches. -/
def findFeePercentage : List Bracket → ℚ → ℚ
  | [], _ => 0
  | b :: rest, a => if b.containsAmt a then b.percentage else findFeePercentage rest a

/-- calculate_fee(amount, payment_mode) -> (fee_amount, total_amount,
fee_percentage), with fee_amount = amount * pct / 100 and
total_amount = amount + fee_amount, unrounded. -/
def calculate_fee (amount : ℚ) (payment_mode : String) : ℚ × ℚ × ℚ :=
  let pct := findFeePercentage (feeConfigs payment_mode) amount
  let fee := amount * pct / 100
  (fee, amount + fee, pct)

/-- Round half to even at integer precision, modelling the Python built-in
round on values whose decimal expansion is exact. -/
def roundHalfEven (x : ℚ) : ℤ :=
  let f := Int.floor x
  let r := x - f
  if r < 1/2 then f
  else if 1/2 < r then f + 1
  else if f % 2 = 0 then f else f + 1

/-- Python round(x, 2): two fractional digits. -/
def round2 (x : ℚ) : ℚ := (roundHalfEven (x * 100) : ℚ) / 100

/-- GET /api/calculate-fee: returns (amount, payment_mode, fee_amount
rounded to 2 digits, total_amount rounded to 2 digits, raw fee_percentage). -/
def get_fee (amount : ℚ) (payment_mode : String) : ℚ × String × ℚ × ℚ × ℚ :=
  let r := calculate_fee amount payment_mode
  (amount, payment_mode, round2 r.1, round2 r.2.1, r.2.2)

lemma feeConfigs_debit : feeConfigs "debit_card" = debitCardRanges := rfl

lemma feeConfigs_credit : feeConfigs "credit_card" = creditCardRanges := rfl

lemma feeConfigs_net : feeConfigs "netbanking" = netbankingRanges := rfl

lemma feeConfigs_upi : feeConfigs "upi" = upiRanges := rfl

lemma findFeePercentage_upi (x : ℚ) : findFeePercentage upiRanges x = 0 := by
  simp [findFeePercentage, upiRanges, Bracket.containsAmt, ubOk]

/-- C5: for every amount and every mode outside the four configured keys,
calculate_fee returns exactly the same triple as for upi (flat 0 percent). -/
theorem c5_unknown_mode_fallback (x : ℚ) (m : String)
    (h1 : m ≠ "debit_card") (h2 : m ≠ "credit_card")
    (h3 : m ≠ "netbanking") (h4 : m ≠ "upi") :
    calculate_fee x m = calculate_fee x "upi" ∧
    (calculate_fee x m).2.2 = 0 := by
  have hm : feeConfigs m = upiRanges := by
    simp only [feeConfigs, if_neg h1, if_neg h2, if_neg h3]
  constructor
  · unfold calculate_fee
    rw [hm, feeConfigs_upi]
  · show findFeePercentage (feeConfigs m) x = 0
    rw [hm]
    exact findFeePercentage_upi x

/-- Witness for C5 at a concrete unknown mode. -/
theorem c5_unknown_mode_fallback_witness :
    "wallet" ≠ "debit_card" ∧
    (calculate_fee 123.45 "wallet" = calculate_fee 123.45 "upi" ∧
      (calculate_fee 123.45 "wallet").2.2 = 0) :=
  ⟨by decide, c5_unknown_mode_fallback 123.45 "wallet"
    (by decide) (by decide) (by decide) (by decide)⟩

/-- C10: for every mode and every negative amount, no bracket matches (all
lower bounds are nonnegative), the default percentage 0.0 applies, and
calculate_fee returns fee 0, total equal to the amount, percentage 0. -/
theorem c10_negative_amount_defensive_default (a : ℚ) (m : String) (h : a < 0) :
    calculate_fee a m = (0, a, 0) := by
  have h0 : ¬ ((0 : ℚ) ≤ a) := not_le.mpr h
  have h1 : ¬ ((2000.01 : ℚ) ≤ a) := not_le.mpr (h.trans (by norm_num))
  have h2 : ¬ ((25000.01 : ℚ) ≤ a) := not_le.mpr (h.trans (by norm_num))
  have h3 : ¬ ((10000.01 : ℚ) ≤ a) := not_le.mpr (h.trans (by norm_num))
  have h4 : ¬ ((50000.01 : ℚ) ≤ a) := not_le.mpr (h.trans (by norm_num))
  unfold calculate_fee feeConfigs
  split_ifs <;>
    simp [findFeePercentage, Bracket.containsAmt, debitCardRanges,
      creditCardRanges, netbankingRanges, upiRanges, h0, h1, h2, h3, h4]

/-- Witness for C10 at amount -1 and mode debit_card. -/
theorem c10_negative_amount_defensive_default_witness :
    (-1 : ℚ) < 0 ∧ calculate_fee (-1) "debit_card" = (0, -1, 0) :=
  ⟨by norm_num, c10_negative_amount_defensive_default (-1) "debit_card" (by norm_num)⟩

lemma calculate_fee_debit_boundary_lo :
    calculate_fee 2000 "debit_card" = (0, 2000, 0) := by
  unfold calculate_fee
  rw [feeConfigs_debit]
  norm_num [findFeePercentage, Bracket.containsAmt, ubOk, debitCardRanges]

lemma calculate_fee_debit_boundary_hi :
    calculate_fee 2000.01 "debit_card" = (10.00005, 2010.01005, 0.5) := by
  unfold calculate_fee
  rw [feeConfigs_debit]
  norm_num [findFeePercentage, Bracket.containsAmt, ubOk, debitCardRanges]

/-- C8 counterexample: at amount 2000.01 with debit_card the fee is
2000.01 * 0.5 / 100 = 10.00005, not the 10.0005 stated by the claim. -/
theorem c8_fee_amount_not_ten_point_0005 :
    (calculate_fee 2000.01 "debit_card").1 ≠ 10.0005 := by
  rw [calculate_fee_debit_boundary_hi]
  norm_num

/-- C8 amended: calculate_fee(2000.00, debit_card) has percentage 0, and
calculate_fee(2000.01, debit_card) has percentage 0.5 with fee_amount
10.00005, which the /api/calculate-fee endpoint rounds to 10.00. -/
theorem c8_debit_card_boundary :
    (calculate_fee 2000 "debit_card").2.2 = 0 ∧
    (calculate_fee 2000.01 "debit_card").2.2 = 0.5 ∧
    (calculate_fee 2000.01 "debit_card").1 = 10.00005 ∧
    (get_fee 2000.01 "debit_card").2.2.1 = 10 := by
  refine ⟨?_, ?_, ?_, ?_⟩
  · rw [calculate_fee_debit_boundary_lo]
  · rw [calculate_fee_debit_boundary_hi]
  · rw [calculate_fee_debit_boundary_hi]
  · show round2 (calculate_fee 2000.01 "debit_card").1 = 10
    rw [calculate_fee_debit_boundary_hi]
    show round2 10.00005 = 10
    unfold round2 roundHalfEven
    norm_num

/-- One row of the bracket table of spec section 4.1, written the way the
spec words it: an inclusive or strict lower bound, an inclusive upper bound
(none meaning unbounded), and the fee percentage. -/
structure SpecRow where
  lo : ℚ
  loStrict : Bool
  hi : Option ℚ
  pct : ℚ
deriving DecidableEq

/-- Membership of an amount in a spec table row. -/
def SpecRow.memRow (r : SpecRow) (a : ℚ) : Prop :=
  (if r.loStrict then r.lo < a else r.lo ≤ a) ∧ ubOk r.hi a

instance (r : SpecRow) (a : ℚ) : Decidable (r.memRow a) := by
  unfold SpecRow.memRow
  infer_instance

/-- Spec table rows for debit_card: [0, 2000] at 0, (2000, inf) at 0.5. -/
def debitSpecRows : List SpecRow := [⟨0, false, some 2000, 0⟩, ⟨2000, true, none, 0.5⟩]

/-- Spec table rows for credit_card: [0, 25000] at 0.1, (25000, inf) at 0.5. -/
def creditSpecRows : List SpecRow := [⟨0, false, some 25000, 0.1⟩, ⟨25000, true, none, 0.5⟩]

/-- Spec table rows for netbanking: [0, 10000] at 0, (10000, 50000] at 0.75,
(50000, inf) at 1. -/
def netSpecRows : List SpecRow :=
  [⟨0, false, some 10000, 0⟩, ⟨10000, true, some 50000, 0.75⟩, ⟨50000, true, none, 1⟩]

/-- Spec table rows for upi: [0, inf) at 0. -/
def upiSpecRows : List SpecRow := [⟨0, false, none, 0⟩]

/-- The section 4.1 bracket table, with the spec's fallback of unrecognized
modes to the upi schedule. -/
def specTable (mode : String) : List SpecRow :=
  if mode = "debit_card" then debitSpecRows
  else if mode = "credit_card" then creditSpecRows
  else if mode = "netbanking" then netSpecRows
  else upiSpecRows

/-- Ordered first-match lookup over spec rows (half-open interval reading),
the alternative representation described by the spec. -/
def specScan : List SpecRow → ℚ → ℚ
  | [], _ => 0
  | r :: rest, a => if r.memRow a then r.pct else specScan rest a

lemma cent_le (a b : ℤ) : ((a : ℚ) / 100 ≤ (b : ℚ) / 100) ↔ a ≤ b := by
  rw [div_le_div_iff (by norm_num : (0:ℚ) < 100) (by norm_num : (0:ℚ) < 100)]
  constructor <;> intro h
  · have h2 : (a : ℚ) ≤ b := by linarith
    exact_mod_cast h2
  · have h2 : (a : ℚ) ≤ b := by exact_mod_cast h
    linarith

lemma cent_lt (a b : ℤ) : ((a : ℚ) / 100 < (b : ℚ) / 100) ↔ a < b := by
  rw [div_lt_div_iff (by norm_num : (0:ℚ) < 100) (by norm_num : (0:ℚ) < 100)]
  constructor <;> intro h
  · have h2 : (a : ℚ) < b := by linarith
    exact_mod_cast h2
  · have h2 : (a : ℚ) < b := by exact_mod_cast h
    linarith

lemma cent_nonneg (k : ℤ) : ((0:ℚ) ≤ (k : ℚ) / 100) ↔ 0 ≤ k := by
  rw [show (0:ℚ) = ((0:ℤ) : ℚ) / 100 by norm_num]
  exact cent_le 0 k

lemma pct_debit (k : ℤ) :
    findFeePercentage debitCardRanges ((k : ℚ) / 100) = if 200000 < k then 1/2 else 0 := by
  have h1 : ((k : ℚ)/100 ≤ (2000 : ℚ)) ↔ (k ≤ 200000) := by
    rw [show (2000:ℚ) = ((200000:ℤ) : ℚ) / 100 by norm_num]
    exact cent_le k 200000
  have h2 : ((2000.01 : ℚ) ≤ (k : ℚ)/100) ↔ (200001 ≤ k) := by
    rw [show (2000.01:ℚ) = ((200001:ℤ) : ℚ) / 100 by norm_num]
    exact cent_le 200001 k
  simp only [findFeePercentage, debitCardRanges, Bracket.containsAmt, ubOk,
    and_true, cent_nonneg, h1, h2]
  split_ifs <;> first | rfl | (exfalso; omega) | norm_num

lemma pct_credit (k : ℤ) :
    findFeePercentage creditCardRanges ((k : ℚ) / 100) =
      if k < 0 then 0 else if 2500000 < k then 1/2 else 1/10 := by
  have h1 : ((k : ℚ)/100 ≤ (25000 : ℚ)) ↔ (k ≤ 2500000) := by
    rw [show (25000:ℚ) = ((2500000:ℤ) : ℚ) / 100 by norm_num]
    exact cent_le k 2500000
  have h2 : ((25000.01 : ℚ) ≤ (k : ℚ)/100) ↔ (2500001 ≤ k) := by
    rw [show (25000.01:ℚ) = ((2500001:ℤ) : ℚ) / 100 by norm_num]
    exact cent_le 2500001 k
  simp only [findFeePercentage, creditCardRanges, Bracket.containsAmt, ubOk,
    and_true, cent_nonneg, h1, h2]
  split_ifs <;> first | rfl | (exfalso; omega) | norm_num

lemma pct_net (k : ℤ) :
    findFeePercentage netbankingRanges ((k : ℚ) / 100) =
      if k ≤ 1000000 then 0 else if k ≤ 5000000 then 3/4 else 1 := by
  have h1 : ((k : ℚ)/100 ≤ (10000 : ℚ)) ↔ (k ≤ 1000000) := by
    rw [show (10000:ℚ) = ((1000000:ℤ) : ℚ) / 100 by norm_num]
    exact cent_le k 1000000
  have h2 : ((10000.01 : ℚ) ≤ (k : ℚ)/100) ↔ (1000001 ≤ k) := by
    rw [show (10000.01:ℚ) = ((1000001:ℤ) : ℚ) / 100 by norm_num]
    exact cent_le 1000001 k
  have h3 : ((k : ℚ)/100 ≤ (50000 : ℚ)) ↔ (k ≤ 5000000) := by
    rw [show (50000:ℚ) = ((5000000:ℤ) : ℚ) / 100 by norm_num]
    exact cent_le k 5000000
  have h4 : ((50000.01 : ℚ) ≤ (k : ℚ)/100) ↔ (5000001 ≤ k) := by
    rw [show (50000.01:ℚ) = ((5000001:ℤ) : ℚ) / 100 by norm_num]
    exact cent_le 5000001 k
  simp only [findFeePercentage, netbankingRanges, Bracket.containsAmt, ubOk,
    and_true, cent_nonneg, h1, h2, h3, h4]
  split_ifs <;> first | rfl | (exfalso; omega) | norm_num

lemma pct_upi (a : ℚ) : findFeePercentage upiRanges a = 0 :=
  findFeePercentage_upi a

lemma spec_pct_debit (k : ℤ) :
    specScan debitSpecRows ((k : ℚ) / 100) = if 200000 < k then 1/2 else 0 := by
  have h1 : ((k : ℚ)/100 ≤ (2000 : ℚ)) ↔ (k ≤ 200000) := by
    rw [show (2000:ℚ) = ((200000:ℤ) : ℚ) / 100 by norm_num]
    exact cent_le k 200000
  have h2 : ((2000 : ℚ) < (k : ℚ)/100) ↔ (200000 < k) := by
    rw [show (2000:ℚ) = ((200000:ℤ) : ℚ) / 100 by norm_num]
    exact cent_lt 200000 k
  simp only [specScan, debitSpecRows, SpecRow.memRow, ubOk, and_true,
    if_true, if_false, Bool.false_eq_true, cent_nonneg, h1, h2]
  split_ifs <;> first | rfl | (exfalso; omega) | norm_num

lemma spec_pct_credit (k : ℤ) :
    specScan creditSpecRows ((k : ℚ) / 100) =
      if k < 0 then 0 else if 2500000 < k then 1/2 else 1/10 := by
  have h1 : ((k : ℚ)/100 ≤ (25000 : ℚ)) ↔ (k ≤ 2500000) := by
    rw [show (25000:ℚ) = ((2500000:ℤ) : ℚ) / 100 by norm_num]
    exact cent_le k 2500000
  have h2 : ((25000 : ℚ) < (k : ℚ)/100) ↔ (2500000 < k) := by
    rw [show (25000:ℚ) = ((2500000:ℤ) : ℚ) / 100 by norm_num]
    exact cent_lt 2500000 k
  simp only [specScan, creditSpecRows, SpecRow.memRow, ubOk, and_true,
    if_true, if_false, Bool.false_eq_true, cent_nonneg, h1, h2]
  split_ifs <;> first | rfl | (exfalso; omega) | norm_num

lemma spec_pct_net (k : ℤ) :
    specScan netSpecRows ((k : ℚ) / 100) =
      if k ≤ 1000000 then 0 else if k ≤ 5000000 then 3/4 else 1 := by
  have h1 : ((k : ℚ)/100 ≤ (10000 : ℚ)) ↔ (k ≤ 1000000) := by
    rw [show (10000:ℚ) = ((1000000:ℤ) : ℚ) / 100 by norm_num]
    exact cent_le k 1000000
  have h2 : ((10000 : ℚ) < (k : ℚ)/100) ↔ (1000000 < k) := by
    rw [show (10000:ℚ) = ((1000000:ℤ) : ℚ) / 100 by norm_num]
    exact cent_lt 1000000 k
  have h3 : ((k : ℚ)/100 ≤ (50000 : ℚ)) ↔ (k ≤ 5000000) := by
    rw [show (50000:ℚ) = ((5000000:ℤ) : ℚ) / 100 by norm_num]
    exact cent_le k 5000000
  have h4 : ((50000 : ℚ) < (k : ℚ)/100) ↔ (5000000 < k) := by
    rw [show (50000:ℚ) = ((5000000:ℤ) : ℚ) / 100 by norm_num]
    exact cent_lt 5000000 k
  simp only [specScan, netSpecRows, SpecRow.memRow, ubOk, and_true,
    if_true, if_false, Bool.false_eq_true, cent_nonneg, h1, h2, h3, h4]
  split_ifs <;> first | rfl | (exfalso; omega) | norm_num

lemma spec_pct_upi (a : ℚ) : specScan upiSpecRows a = 0 := by
  simp [specScan, upiSpecRows, SpecRow.memRow, ubOk]

/-- C7: on every whole-cent amount k/100 (k an integer) and every mode, the
source's epsilon-offset bracket lookup and the spec's half-open interval
lookup return the same fee percentage. -/
theorem c7_epsilon_halfopen_equivalence (k : ℤ) (m : String) :
    (calculate_fee ((k : ℚ) / 100) m).2.2 = specScan (specTable m) ((k : ℚ) / 100) := by
  show findFeePercentage (feeConfigs m) ((k : ℚ) / 100) = _
  unfold feeConfigs specTable
  split_ifs
  · rw [pct_debit, spec_pct_debit]
  · rw [pct_credit, spec_pct_credit]
  · rw [pct_net, spec_pct_net]
  · rw [pct_upi, spec_pct_upi]

lemma specTable_debit : specTable "debit_card" = debitSpecRows := rfl

lemma specTable_credit : specTable "credit_card" = creditSpecRows := rfl

lemma specTable_net : specTable "netbanking" = netSpecRows := rfl

lemma specTable_upi : specTable "upi" = upiSpecRows := rfl

lemma c1_debit (k : ℤ) (hk : 0 ≤ k) :
    ∃ r ∈ debitSpecRows, r.memRow ((k : ℚ)/100) ∧
      (∀ r2 ∈ debitSpecRows, r2.memRow ((k : ℚ)/100) → r2 = r) ∧
      findFeePercentage debitCardRanges ((k : ℚ)/100) = r.pct := by
  have h1 : ((k : ℚ)/100 ≤ (2000 : ℚ)) ↔ (k ≤ 200000) := by
    rw [show (2000:ℚ) = ((200000:ℤ) : ℚ) / 100 by norm_num]
    exact cent_le k 200000
  have h2 : ((2000 : ℚ) < (k : ℚ)/100) ↔ (200000 < k) := by
    rw [show (2000:ℚ) = ((200000:ℤ) : ℚ) / 100 by norm_num]
    exact cent_lt 200000 k
  rcases le_or_lt k 200000 with hle | hgt
  · refine ⟨⟨0, false, some 2000, 0⟩, by simp [debitSpecRows],
      ⟨(cent_nonneg k).mpr hk, h1.mpr hle⟩, ?_, ?_⟩
    · intro r2 hr2 hmem
      simp only [debitSpecRows, List.mem_cons, List.mem_singleton,
        List.not_mem_nil, or_false] at hr2
      rcases hr2 with rfl | rfl
      · rfl
      · exact absurd (h2.mp hmem.1) (by omega)
    · rw [pct_debit, if_neg (by omega)]
  · refine ⟨⟨2000, true, none, 0.5⟩, by simp [debitSpecRows],
      ⟨h2.mpr hgt, trivial⟩, ?_, ?_⟩
    · intro r2 hr2 hmem
      simp only [debitSpecRows, List.mem_cons, List.mem_singleton,
        List.not_mem_nil, or_false] at hr2
      rcases hr2 with rfl | rfl
      · exact absurd (h1.mp hmem.2) (by omega)
      · rfl
    · rw [pct_debit, if_pos hgt]
      norm_num

lemma c1_credit (k : ℤ) (hk : 0 ≤ k) :
    ∃ r ∈ creditSpecRows, r.memRow ((k : ℚ)/100) ∧
      (∀ r2 ∈ creditSpecRows, r2.memRow ((k : ℚ)/100) → r2 = r) ∧
      findFeePercentage creditCardRanges ((k : ℚ)/100) = r.pct := by
  have h1 : ((k : ℚ)/100 ≤ (25000 : ℚ)) ↔ (k ≤ 2500000) := by
    rw [show (25000:ℚ) = ((2500000:ℤ) : ℚ) / 100 by norm_num]
    exact cent_le k 2500000
  have h2 : ((25000 : ℚ) < (k : ℚ)/100) ↔ (2500000 < k) := by
    rw [show (25000:ℚ) = ((2500000:ℤ) : ℚ) / 100 by norm_num]
    exact cent_lt 2500000 k
  rcases le_or_lt k 2500000 with hle | hgt
  · refine ⟨⟨0, false, some 25000, 0.1⟩, by simp [creditSpecRows],
      ⟨(cent_nonneg k).mpr hk, h1.mpr hle⟩, ?_, ?_⟩
    · intro r2 hr2 hmem
      simp only [creditSpecRows, List.mem_cons, List.mem_singleton,
        List.not_mem_nil, or_false] at hr2
      rcases hr2 with rfl | rfl
      · rfl
      · exact absurd (h2.mp hmem.1) (by omega)
    · rw [pct_credit, if_neg (by omega), if_neg (by omega)]
      norm_num
  · refine ⟨⟨25000, true, none, 0.5⟩, by simp [creditSpecRows],
      ⟨h2.mpr hgt, trivial⟩, ?_, ?_⟩
    · intro r2 hr2 hmem
      simp only [creditSpecRows, List.mem_cons, List.mem_singleton,
        List.not_mem_nil, or_false] at hr2
      rcases hr2 with rfl | rfl
      · exact absurd (h1.mp hmem.2) (by omega)
      · rfl
    · rw [pct_credit, if_neg (by omega), if_pos hgt]
      norm_num

lemma c1_net (k : ℤ) (hk : 0 ≤ k) :
    ∃ r ∈ netSpecRows, r.memRow ((k : ℚ)/100) ∧
      (∀ r2 ∈ netSpecRows, r2.memRow ((k : ℚ)/100) → r2 = r) ∧
      findFeePercentage netbankingRanges ((k : ℚ)/100) = r.pct := by
  have h1 : ((k : ℚ)/100 ≤ (10000 : ℚ)) ↔ (k ≤ 1000000) := by
    rw [show (10000:ℚ) = ((1000000:ℤ) : ℚ) / 100 by norm_num]
    exact cent_le k 1000000
  have h2 : ((10000 : ℚ) < (k : ℚ)/100) ↔ (1000000 < k) := by
    rw [show (10000:ℚ) = ((1000000:ℤ) : ℚ) / 100 by norm_num]
    exact cent_lt 1000000 k
  have h3 : ((k : ℚ)/100 ≤ (50000 : ℚ)) ↔ (k ≤ 5000000) := by
    rw [show (50000:ℚ) = ((5000000:ℤ) : ℚ) / 100 by norm_num]
    exact cent_le k 5000000
  have h4 : ((50000 : ℚ) < (k : ℚ)/100) ↔ (5000000 < k) := by
    rw [show (50000:ℚ) = ((5000000:ℤ) : ℚ) / 100 by norm_num]
    exact cent_lt 5000000 k
  rcases le_or_lt k 1000000 with hle | hgt1
  · refine ⟨⟨0, false, some 10000, 0⟩, by simp [netSpecRows],
      ⟨(cent_nonneg k).mpr hk, h1.mpr hle⟩, ?_, ?_⟩
    · intro r2 hr2 hmem
      simp only [netSpecRows, List.mem_cons, List.mem_singleton,
        List.not_mem_nil, or_false] at hr2
      rcases hr2 with rfl | rfl | rfl
      · rfl
      · exact absurd (h2.mp hmem.1) (by omega)
      · exact absurd (h4.mp hmem.1) (by omega)
    · rw [pct_net, if_pos hle]
  · rcases le_or_lt k 5000000 with hle2 | hgt2
    · refine ⟨⟨10000, true, some 50000, 0.75⟩, by simp [netSpecRows],
        ⟨h2.mpr hgt1, h3.mpr hle2⟩, ?_, ?_⟩
      · intro r2 hr2 hmem
        simp only [netSpecRows, List.mem_cons, List.mem_singleton,
          List.not_mem_nil, or_false] at hr2
        rcases hr2 with rfl | rfl | rfl
        · exact absurd (h1.mp hmem.2) (by omega)
        · rfl
        · exact absurd (h4.mp hmem.1) (by omega)
      · rw [pct_net, if_neg (by omega), if_pos hle2]
        norm_num
    · refine ⟨⟨50000, true, none, 1⟩, by simp [netSpecRows],
        ⟨h4.mpr hgt2, trivial⟩, ?_, ?_⟩
      · intro r2 hr2 hmem
        simp only [netSpecRows, List.mem_cons, List.mem_singleton,
          List.not_mem_nil, or_false] at hr2
        rcases hr2 with rfl | rfl | rfl
        · exact absurd (h1.mp hmem.2) (by omega)
        · exact absurd (h3.mp hmem.2) (by omega)
        · rfl
      · rw [pct_net, if_neg (by omega), if_neg (by omega)]

lemma c1_upi (k : ℤ) (hk : 0 ≤ k) :
    ∃ r ∈ upiSpecRows, r.memRow ((k : ℚ)/100) ∧
      (∀ r2 ∈ upiSpecRows, r2.memRow ((k : ℚ)/100) → r2 = r) ∧
      findFeePercentage upiRanges ((k : ℚ)/100) = r.pct := by
  refine ⟨⟨0, false, none, 0⟩, by simp [upiSpecRows],
    ⟨(cent_nonneg k).mpr hk, trivial⟩, ?_, ?_⟩
  · intro r2 hr2 _
    simpa [upiSpecRows] using hr2
  · rw [pct_upi]

/-- C1 amended: for every nonnegative whole-cent amount k/100 and every mode,
the amount lies in exactly one row of the section 4.1 table, calculate_fee
returns exactly that row's percentage, and fee_amount = amount * pct / 100
with total_amount = amount + fee_amount, exactly. -/
theorem c1_fee_matches_table_on_cents (k : ℤ) (m : String) (hk : 0 ≤ k) :
    ∃ r ∈ specTable m, r.memRow ((k : ℚ)/100) ∧
      (∀ r2 ∈ specTable m, r2.memRow ((k : ℚ)/100) → r2 = r) ∧
      (calculate_fee ((k : ℚ)/100) m).2.2 = r.pct ∧
      (calculate_fee ((k : ℚ)/100) m).1 = ((k : ℚ)/100) * r.pct / 100 ∧
      (calculate_fee ((k : ℚ)/100) m).2.1 = ((k : ℚ)/100) + ((k : ℚ)/100) * r.pct / 100 := by
  have key : ∃ r ∈ specTable m, r.memRow ((k : ℚ)/100) ∧
      (∀ r2 ∈ specTable m, r2.memRow ((k : ℚ)/100) → r2 = r) ∧
      findFeePercentage (feeConfigs m) ((k : ℚ)/100) = r.pct := by
    unfold specTable feeConfigs
    split_ifs
    · exact c1_debit k hk
    · exact c1_credit k hk
    · exact c1_net k hk
    · exact c1_upi k hk
  obtain ⟨r, hr, hmem, huniq, hpct⟩ := key
  refine ⟨r, hr, hmem, huniq, hpct, ?_, ?_⟩
  · show ((k : ℚ)/100) * findFeePercentage (feeConfigs m) ((k : ℚ)/100) / 100 = _
    rw [hpct]
  · show ((k : ℚ)/100) + ((k : ℚ)/100) * findFeePercentage (feeConfigs m) ((k : ℚ)/100) / 100 = _
    rw [hpct]

/-- Witness for C1 amended at 1500.00 (150000 cents) with debit_card. -/
theorem c1_fee_matches_table_on_cents_witness :
    (0:ℤ) ≤ 150000 ∧
    (∃ r ∈ specTable "debit_card", r.memRow (((150000:ℤ) : ℚ)/100) ∧
      (∀ r2 ∈ specTable "debit_card", r2.memRow (((150000:ℤ) : ℚ)/100) → r2 = r) ∧
      (calculate_fee (((150000:ℤ) : ℚ)/100) "debit_card").2.2 = r.pct ∧
      (calculate_fee (((150000:ℤ) : ℚ)/100) "debit_card").1 =
        (((150000:ℤ) : ℚ)/100) * r.pct / 100 ∧
      (calculate_fee (((150000:ℤ) : ℚ)/100) "debit_card").2.1 =
        (((150000:ℤ) : ℚ)/100) + (((150000:ℤ) : ℚ)/100) * r.pct / 100) :=
  ⟨by norm_num, c1_fee_matches_table_on_cents 150000 "debit_card" (by norm_num)⟩

/-- C1 counterexample: the claim quantifies over every amount at least 0,
but at the non-cent amount 2000.005 with debit_card the unique matching
table row carries percentage 0.5 while calculate_fee returns percentage 0
(the gap between the epsilon brackets (0, 2000) and (2000.01, inf)). -/
theorem c1_counterexample_noncent_amount :
    (0:ℚ) ≤ 2000.005 ∧
    (∃ r ∈ specTable "debit_card", r.memRow (2000.005 : ℚ) ∧
      (∀ r2 ∈ specTable "debit_card", r2.memRow (2000.005 : ℚ) → r2 = r) ∧
      r.pct = 0.5) ∧
    (calculate_fee (2000.005 : ℚ) "debit_card").2.2 = 0 ∧
    (calculate_fee (2000.005 : ℚ) "debit_card").2.2 ≠ 0.5 := by
  have hcode : (calculate_fee (2000.005 : ℚ) "debit_card").2.2 = 0 := by
    show findFeePercentage (feeConfigs "debit_card") (2000.005 : ℚ) = 0
    rw [feeConfigs_debit]
    norm_num [findFeePercentage, debitCardRanges, Bracket.containsAmt, ubOk]
  refine ⟨by norm_num, ⟨⟨2000, true, none, 0.5⟩, ?_, ⟨by norm_num, trivial⟩, ?_, rfl⟩,
    hcode, by rw [hcode]; norm_num⟩
  · rw [specTable_debit]
    simp [debitSpecRows]
  · intro r2 hr2 hmem
    rw [specTable_debit] at hr2
    simp only [debitSpecRows, List.mem_cons, List.mem_singleton,
      List.not_mem_nil, or_false] at hr2
    rcases hr2 with rfl | rfl
    · have hx : (2000.005 : ℚ) ≤ 2000 := hmem.2
      norm_num at hx
    · rfl

/-- PaymentOption response model: amounts rounded to 2 digits at
construction, raw fee percentage, rounded success rate. -/
structure PaymentOption where
  gateway : String
  payment_mode : String
  base_amount : ℚ
  fee_amount : ℚ
  total_amount : ℚ
  fee_percentage : ℚ
  success_rate : Option ℚ
deriving DecidableEq

/-- The fixed catalog of 9 (gateway, payment_mode) pairs in create_checkout. -/
def payment_methods : List (String × String) :=
  [("Razorpay", "debit_card"), ("Razorpay", "credit_card"), ("Razorpay", "netbanking"),
   ("Razorpay", "upi"), ("PayU", "debit_card"), ("PayU", "credit_card"), ("PayU", "upi"),
   ("Cashfree", "debit_card"), ("Cashfree", "upi")]

/-- The first loop of create_checkout: one PaymentOption per catalog entry,
with fee/total rounded and the fetched success rate rounded; sr abstracts
get_success_rate_from_db for the request. -/
def build_payment_options (amount : ℚ) (sr : String → String → ℚ) : List PaymentOption :=
  payment_methods.map (fun gm =>
    { gateway := gm.1, payment_mode := gm.2, base_amount := amount,
      fee_amount := round2 (calculate_fee amount gm.2).1,
      total_amount := round2 (calculate_fee amount gm.2).2.1,
      fee_percentage := (calculate_fee amount gm.2).2.2,
      success_rate := some (round2 (sr gm.1 gm.2)) })

/-- The score of the second loop: 1 / total_amount * 1000 plus the freshly
re-fetched success rate. -/
def option_score (sr : String → String → ℚ) (o : PaymentOption) : ℚ :=
  1 / o.total_amount * 1000 + sr o.gateway o.payment_mode

/-- The selection loop state machine: starts at (None, -1); a new best is
taken exactly when its score is strictly greater than the running best. -/
def scanLoop {α : Type} (score : α → ℚ) : List α → Option α × ℚ → Option α × ℚ
  | [], s => s
  | o :: rest, (best, bs) =>
      if bs < score o then scanLoop score rest (some o, score o)
      else scanLoop score rest (best, bs)

/-- CheckoutResponse model. -/
structure CheckoutResponse where
  original_amount : ℚ
  payment_options : List PaymentOption
  recommended_option : Option PaymentOption
deriving DecidableEq

/-- create_checkout: build the options then scan for the best score. -/
def create_checkout (amount : ℚ) (sr : String → String → ℚ) : CheckoutResponse :=
  let opts := build_payment_options amount sr
  { original_amount := amount, payment_options := opts,
    recommended_option := (scanLoop (option_score sr) opts (none, -1)).1 }

lemma scanLoop_spec {α : Type} (score : α → ℚ) (l : List α) (best : Option α) (bs : ℚ) :
    (scanLoop score l (best, bs) = (best, bs) ∧ ∀ o ∈ l, score o ≤ bs) ∨
    (∃ i : Fin l.length,
      scanLoop score l (best, bs) = (some (l.get i), score (l.get i)) ∧
      bs < score (l.get i) ∧
      (∀ o ∈ l, score o ≤ score (l.get i)) ∧
      (∀ o ∈ l.take i.1, score o < score (l.get i))) := by
  induction l generalizing best bs with
  | nil =>
      left
      exact ⟨rfl, by simp⟩
  | cons o rest ih =>
      by_cases h : bs < score o
      · rw [scanLoop, if_pos h]
        rcases ih (some o) (score o) with ⟨heq, hall⟩ | ⟨i, heq, hlt, hmax, hstrict⟩
        · right
          refine ⟨⟨0, by simp⟩, ?_, ?_, ?_, ?_⟩
          · simpa using heq
          · simpa using h
          · intro x hx
            rcases List.mem_cons.mp hx with rfl | hx2
            · simp
            · simpa using hall x hx2
          · intro x hx
            simp at hx
        · right
          refine ⟨⟨i.1 + 1, by simpa using Nat.succ_lt_succ i.2⟩, ?_, ?_, ?_, ?_⟩
          · simpa using heq
          · simpa using h.trans hlt
          · intro x hx
            rcases List.mem_cons.mp hx with rfl | hx2
            · simpa using le_of_lt hlt
            · simpa using hmax x hx2
          · intro x hx
            simp only [List.take_succ_cons, List.mem_cons] at hx
            rcases hx with rfl | hx2
            · simpa using hlt
            · simpa using hstrict x hx2
      · rw [scanLoop, if_neg h]
        rcases ih best bs with ⟨heq, hall⟩ | ⟨i, heq, hlt, hmax, hstrict⟩
        · left
          refine ⟨heq, ?_⟩
          intro x hx
          rcases List.mem_cons.mp hx with rfl | hx2
          · exact le_of_not_lt h
          · exact hall x hx2
        · right
          refine ⟨⟨i.1 + 1, by simpa using Nat.succ_lt_succ i.2⟩, ?_, ?_, ?_, ?_⟩
          · simpa using heq
          · simpa using hlt
          · intro x hx
            rcases List.mem_cons.mp hx with rfl | hx2
            · simpa using le_of_lt (lt_of_le_of_lt (le_of_not_lt h) hlt)
            · simpa using hmax x hx2
          · intro x hx
            simp only [List.take_succ_cons, List.mem_cons] at hx
            rcases hx with rfl | hx2
            · simpa using lt_of_le_of_lt (le_of_not_lt h) hlt
            · simpa using hstrict x hx2

/-- C4: given the per-entry success rates, the recommended option is an
option of maximal score = 1/total_amount*1000 + success_rate, and every
option strictly earlier in catalog order has strictly smaller score (the
scan uses strict greater-than, so the first maximiser wins). The hypothesis
says every score exceeds the loop's -1 sentinel, which holds for any real
success rate and positive total. -/
theorem c4_recommendation_first_max (amount : ℚ) (sr : String → String → ℚ)
    (h : ∀ o ∈ build_payment_options amount sr, -1 < option_score sr o) :
    ∃ i : Fin (build_payment_options amount sr).length,
      (create_checkout amount sr).recommended_option =
        some ((build_payment_options amount sr).get i) ∧
      (∀ o ∈ build_payment_options amount sr,
        option_score sr o ≤ option_score sr ((build_payment_options amount sr).get i)) ∧
      (∀ o ∈ (build_payment_options amount sr).take i.1,
        option_score sr o < option_score sr ((build_payment_options amount sr).get i)) := by
  rcases scanLoop_spec (option_score sr) (build_payment_options amount sr) none (-1) with
    ⟨heq, hall⟩ | ⟨i, heq, hlt, hmax, hstrict⟩
  · exfalso
    have hne : build_payment_options amount sr ≠ [] := by
      simp [build_payment_options, payment_methods]
    obtain ⟨o0, rest0, he⟩ := List.exists_cons_of_ne_nil hne
    have hm : o0 ∈ build_payment_options amount sr := by
      rw [he]
      exact List.mem_cons_self o0 rest0
    exact absurd (h o0 hm) (not_lt.mpr (hall o0 hm))
  · refine ⟨i, ?_, hmax, hstrict⟩
    show (scanLoop (option_score sr) (build_payment_options amount sr) (none, -1)).1 = _
    rw [heq]

/-- Witness for C4 at amount 1500 with all success rates equal to 95. -/
theorem c4_recommendation_first_max_witness :
    (∀ o ∈ build_payment_options 1500 (fun _ _ => 95),
      -1 < option_score (fun _ _ => 95) o) ∧
    (∃ i : Fin (build_payment_options 1500 (fun _ _ => 95)).length,
      (create_checkout 1500 (fun _ _ => 95)).recommended_option =
        some ((build_payment_options 1500 (fun _ _ => 95)).get i) ∧
      (∀ o ∈ build_payment_options 1500 (fun _ _ => 95),
        option_score (fun _ _ => 95) o ≤
          option_score (fun _ _ => 95) ((build_payment_options 1500 (fun _ _ => 95)).get i)) ∧
      (∀ o ∈ (build_payment_options 1500 (fun _ _ => 95)).take i.1,
        option_score (fun _ _ => 95) o <
          option_score (fun _ _ => 95) ((build_payment_options 1500 (fun _ _ => 95)).get i))) := by
  have h : ∀ o ∈ build_payment_options 1500 (fun _ _ => 95),
      -1 < option_score (fun _ _ => 95) o := by
    intro o ho
    simp only [build_payment_options, payment_methods, List.map_cons, List.map_nil,
      List.mem_cons, List.not_mem_nil, or_false] at ho
    rcases ho with rfl | rfl | rfl | rfl | rfl | rfl | rfl | rfl | rfl <;>
      norm_num [option_score, round2, roundHalfEven, calculate_fee, feeConfigs,
        findFeePercentage, Bracket.containsAmt, ubOk, debitCardRanges,
        creditCardRanges, netbankingRanges, upiRanges]
  exact ⟨h, c4_recommendation_first_max 1500 (fun _ _ => 95) h⟩

/-- A row of the transactions table / TransactionResponse model. -/
structure TransactionRow where
  id : ℕ
  transaction_id : String
  gateway : String
  payment_mode : String
  base_amount : ℚ
  fee_amount : ℚ
  total_amount : ℚ
  status : String
  gateway_transaction_id : Option String
  gateway_response : Option String
  created_at : ℤ
  updated_at : ℤ
deriving DecidableEq

/-- An HTTPException: status code and detail. -/
structure HttpError where
  status_code : ℕ
  detail : String
deriving DecidableEq

/-- Python str(HTTPException), which prints as "status_code: detail". -/
def HttpError.text (e : HttpError) : String :=
  toString e.status_code ++ ": " ++ e.detail

/-- The blanket handler at the bottom of each route: except Exception as e
re-raises HTTPException(500, "Database error: " + str(e)); note that an
HTTPException raised inside the try block is itself an Exception and is
therefore re-wrapped. -/
def wrapDbError (e : HttpError) : HttpError :=
  ⟨500, "Database error: " ++ e.text⟩

/-- The body of get_transaction inside the try block: SELECT by
transaction_id, 404 when no row is found. -/
def get_transaction_body (db : List TransactionRow) (tid : String) :
    Except HttpError TransactionRow :=
  match db.find? (fun r => r.transaction_id == tid) with
  | some r => Except.ok r
  | none => Except.error ⟨404, "Transaction not found"⟩

/-- get_transaction as observed by the HTTP caller: any exception escaping
the try block, including the 404 HTTPException, is re-wrapped as a 500. -/
def get_transaction (db : List TransactionRow) (tid : String) :
    Except HttpError TransactionRow :=
  match get_transaction_body db tid with
  | Except.ok r => Except.ok r
  | Except.error e => Except.error (wrapDbError e)

/-- Python truthiness of a required string parameter. -/
def truthyStr (s : String) : Bool := !(s == "")

/-- Python truthiness of an optional string parameter (None and "" falsy). -/
def truthyOpt : Option String → Bool
  | none => false
  | some s => !(s == "")

/-- The SET clause of update_transaction applied to one row: each truthy
parameter overwrites its column, updated_at := CURRENT_TIMESTAMP. -/
def applyUpdate (status : String) (gtid gresp : Option String) (now : ℤ)
    (r : TransactionRow) : TransactionRow :=
  { r with
    status := if truthyStr status then status else r.status,
    gateway_transaction_id := if truthyOpt gtid then gtid else r.gateway_transaction_id,
    gateway_response := if truthyOpt gresp then gresp else r.gateway_response,
    updated_at := now }

/-- The body of update_transaction inside the try block: 400 when no field
is truthy, otherwise UPDATE ... WHERE transaction_id = tid, then 404 when
the cursor matched no row. -/
def update_transaction_body (db : List TransactionRow) (tid status : String)
    (gtid gresp : Option String) (now : ℤ) :
    List TransactionRow × Except HttpError String :=
  if truthyStr status || truthyOpt gtid || truthyOpt gresp then
    let db2 := db.map (fun r =>
      if r.transaction_id == tid then applyUpdate status gtid gresp now r else r)
    if db.any (fun r => r.transaction_id == tid) then
      (db2, Except.ok "Transaction updated successfully")
    else
      (db2, Except.error ⟨404, "Transaction not found"⟩)
  else
    (db, Except.error ⟨400, "No fields to update"⟩)

/-- update_transaction as observed by the HTTP caller: the 404 and 400
HTTPExceptions raised inside the try block are re-wrapped as 500s. -/
def update_transaction (db : List TransactionRow) (tid status : String)
    (gtid gresp : Option String) (now : ℤ) :
    List TransactionRow × Except HttpError String :=
  match update_transaction_body db tid status gtid gresp now with
  | (db2, Except.ok msg) => (db2, Except.ok msg)
  | (db2, Except.error e) => (db2, Except.error (wrapDbError e))

/-- TransactionRequest body of POST /api/transactions. -/
structure TransactionRequest where
  transaction_id : String
  gateway : String
  payment_mode : String
  base_amount : ℚ
  fee_amount : ℚ
  total_amount : ℚ
  status : String
deriving DecidableEq

/-- Modelled from the spec: the provisioned transactions table (its schema
file database_schema.sql is not under src) declares transaction_id UNIQUE,
so the INSERT of a duplicate transaction_id raises an IntegrityError and
the per-request transaction is rolled back, leaving the store unchanged. -/
def insertUnique (db : List TransactionRow) (row : TransactionRow) :
    Except String (List TransactionRow) :=
  if db.any (fun r => r.transaction_id == row.transaction_id) then
    Except.error ("Duplicate entry " ++ row.transaction_id)
  else
    Except.ok (db ++ [row])

/-- The row INSERTed by create_transaction: fresh surrogate id, both
timestamps set to the request time, gateway references NULL. -/
def mkRow (req : TransactionRequest) (tid : String) (nextId : ℕ) (now : ℤ) :
    TransactionRow :=
  { id := nextId, transaction_id := tid, gateway := req.gateway,
    payment_mode := req.payment_mode, base_amount := req.base_amount,
    fee_amount := req.fee_amount, total_amount := req.total_amount,
    status := req.status, gateway_transaction_id := none,
    gateway_response := none, created_at := now, updated_at := now }

/-- create_transaction: uses the supplied transaction_id when truthy, else
the generated uuid hex genId; INSERT then SELECT the row back; any
exception (including the uniqueness violation) surfaces as HTTP 500. -/
def create_transaction (db : List TransactionRow) (req : TransactionRequest)
    (genId : String) (nextId : ℕ) (now : ℤ) :
    List TransactionRow × Except HttpError TransactionRow :=
  let tid := if truthyStr req.transaction_id then req.transaction_id else genId
  match insertUnique db (mkRow req tid nextId now) with
  | Except.error msg => (db, Except.error ⟨500, "Database error: " ++ msg⟩)
  | Except.ok db2 =>
      match db2.find? (fun r => r.transaction_id == tid) with
      | some r => (db2, Except.ok r)
      | none => (db, Except.error ⟨500, "Database error: 500: Failed to create transaction"⟩)

/-- The 30-day window filter of get_success_rate_from_db: same gateway,
same payment_mode, created_at within the trailing 30 days of now. -/
def windowTransactions (db : List TransactionRow) (now : ℤ) (g m : String) :
    List TransactionRow :=
  db.filter (fun r =>
    r.gateway == g && r.payment_mode == m && decide (now - 30 * 86400 ≤ r.created_at))

/-- get_success_rate_from_db: SUM(status = success)/COUNT(*)*100 over the
window; the SQL aggregate is NULL on an empty window and the code then
returns the 95.0 cold-start default. -/
def get_success_rate_from_db (db : List TransactionRow) (now : ℤ) (g m : String) : ℚ :=
  let w := windowTransactions db now g m
  if w.length = 0 then 95
  else ((w.filter (fun r => r.status == "success")).length : ℚ) / (w.length : ℚ) * 100

/-- C2 divergence: for a transaction_id absent from the store, the code
raises HTTPException(404) inside the try block, the blanket except catches
it as a plain Exception, and the caller observes HTTP 500 with detail
"Database error: 404: Transaction not found" instead of the 404 that both
the claim and the code's own raise intend; update_transaction behaves the
same with a supplied status field. -/
theorem c2_missing_id_surfaces_500_not_404 :
    get_transaction [] "missing-id" =
      Except.error ⟨500, "Database error: 404: Transaction not found"⟩ ∧
    (update_transaction [] "missing-id" "success" none none 0).2 =
      Except.error ⟨500, "Database error: 404: Transaction not found"⟩ ∧
    (∀ e, get_transaction [] "missing-id" = Except.error e → e.status_code ≠ 404) := by
  refine ⟨rfl, rfl, ?_⟩
  intro e he
  rw [show get_transaction [] "missing-id" =
    Except.error ⟨500, "Database error: 404: Transaction not found"⟩ from rfl] at he
  injection he with h
  rw [← h]
  decide

/-- C6: the success rate is always within [0, 100]; it is exactly 95 when
the 30-day window for the (gateway, mode) pair is empty, and otherwise it
equals 100 * successful / total over the window. -/
theorem c6_success_rate_bounds_and_cold_start (db : List TransactionRow) (now : ℤ)
    (g m : String) :
    0 ≤ get_success_rate_from_db db now g m ∧
    get_success_rate_from_db db now g m ≤ 100 ∧
    ((windowTransactions db now g m).length = 0 →
      get_success_rate_from_db db now g m = 95) ∧
    ((windowTransactions db now g m).length ≠ 0 →
      get_success_rate_from_db db now g m =
        100 * (((windowTransactions db now g m).filter
            (fun r => r.status == "success")).length : ℚ) /
          ((windowTransactions db now g m).length : ℚ)) := by
  by_cases hl : (windowTransactions db now g m).length = 0
  · unfold get_success_rate_from_db
    rw [if_pos hl]
    refine ⟨by norm_num, by norm_num, fun _ => rfl, fun hc => absurd hl hc⟩
  · unfold get_success_rate_from_db
    rw [if_neg hl]
    have hpos : (0 : ℚ) < ((windowTransactions db now g m).length : ℚ) := by
      have := Nat.pos_of_ne_zero hl
      exact_mod_cast this
    have hle : (((windowTransactions db now g m).filter
        (fun r => r.status == "success")).length : ℚ) ≤
        ((windowTransactions db now g m).length : ℚ) := by
      exact_mod_cast List.length_filter_le _ _
    refine ⟨?_, ?_, fun hc => absurd hc hl, fun _ => by ring⟩
    · positivity
    · have h1 : (((windowTransactions db now g m).filter
          (fun r => r.status == "success")).length : ℚ) /
          ((windowTransactions db now g m).length : ℚ) ≤ 1 :=
        (div_le_one hpos).mpr hle
      calc (((windowTransactions db now g m).filter
            (fun r => r.status == "success")).length : ℚ) /
            ((windowTransactions db now g m).length : ℚ) * 100
          ≤ 1 * 100 := by
            exact mul_le_mul_of_nonneg_right h1 (by norm_num)
        _ = 100 := by norm_num

/-- Witness for C6 on the empty store. -/
theorem c6_success_rate_bounds_and_cold_start_witness :
    0 ≤ get_success_rate_from_db [] 0 "Razorpay" "upi" ∧
    get_success_rate_from_db [] 0 "Razorpay" "upi" ≤ 100 ∧
    ((windowTransactions [] 0 "Razorpay" "upi").length = 0 →
      get_success_rate_from_db [] 0 "Razorpay" "upi" = 95) ∧
    ((windowTransactions [] 0 "Razorpay" "upi").length ≠ 0 →
      get_success_rate_from_db [] 0 "Razorpay" "upi" =
        100 * (((windowTransactions [] 0 "Razorpay" "upi").filter
            (fun r => r.status == "success")).length : ℚ) /
          ((windowTransactions [] 0 "Razorpay" "upi").length : ℚ)) :=
  c6_success_rate_bounds_and_cold_start [] 0 "Razorpay" "upi"

lemma create_dup_shape (db : List TransactionRow) (req : TransactionRequest)
    (g : String) (n : ℕ) (t : ℤ)
    (hne : truthyStr req.transaction_id = true)
    (hdup : db.any (fun r => r.transaction_id == req.transaction_id) = true) :
    create_transaction db req g n t =
      (db, Except.error
        ⟨500, "Database error: " ++ ("Duplicate entry " ++ req.transaction_id)⟩) := by
  simp only [create_transaction]
  rw [if_pos hne]
  unfold insertUnique
  have hdup2 : db.any (fun r =>
      r.transaction_id == (mkRow req req.transaction_id n t).transaction_id) = true := hdup
  rw [if_pos hdup2]
  rfl

lemma create_ok_shape (db : List TransactionRow) (req : TransactionRequest)
    (g : String) (n : ℕ) (t : ℤ)
    (hne : truthyStr req.transaction_id = true)
    (hnodup : db.any (fun r => r.transaction_id == req.transaction_id) = false) :
    create_transaction db req g n t =
      (db ++ [mkRow req req.transaction_id n t],
       Except.ok (mkRow req req.transaction_id n t)) := by
  simp only [create_transaction]
  rw [if_pos hne]
  unfold insertUnique
  have hnodup2 : db.any (fun r =>
      r.transaction_id == (mkRow req req.transaction_id n t).transaction_id) = false := hnodup
  rw [if_neg (by rw [hnodup2]; exact Bool.false_ne_true)]
  have hfind : (db ++ [mkRow req req.transaction_id n t]).find?
      (fun r => r.transaction_id == req.transaction_id) =
      some (mkRow req req.transaction_id n t) := by
    rw [List.find?_append]
    have h1 : db.find? (fun r => r.transaction_id == req.transaction_id) = none := by
      rw [List.find?_eq_none]
      exact List.any_eq_false.mp hnodup
    rw [h1]
    simp [List.find?, mkRow]
  show (match (db ++ [mkRow req req.transaction_id n t]).find?
      (fun r => r.transaction_id == req.transaction_id) with
    | some r => (db ++ [mkRow req req.transaction_id n t], Except.ok r)
    | none => (db, Except.error
        (⟨500, "Database error: 500: Failed to create transaction"⟩ : HttpError))) =
    (db ++ [mkRow req req.transaction_id n t],
     Except.ok (mkRow req req.transaction_id n t))
  rw [hfind]

/-- C3 amended: after a successful create with an explicit transaction_id, a
second create with the same explicit transaction_id fails — surfaced as an
HTTP 500 StorageFailure wrapping the uniqueness violation, not silently
overwritten — and the store and the stored first transaction are unchanged. -/
theorem c3_duplicate_create_fails_store_unchanged
    (db db2 : List TransactionRow) (req req2 : TransactionRequest)
    (g1 g2 : String) (n1 n2 : ℕ) (t1 t2 : ℤ) (resp : TransactionRow)
    (hne : req.transaction_id ≠ "")
    (hsame : req2.transaction_id = req.transaction_id)
    (hfirst : create_transaction db req g1 n1 t1 = (db2, Except.ok resp)) :
    (create_transaction db2 req2 g2 n2 t2).1 = db2 ∧
    (∃ e, (create_transaction db2 req2 g2 n2 t2).2 = Except.error e ∧
      e.status_code = 500 ∧ e.status_code ≠ 409) ∧
    resp.transaction_id = req.transaction_id ∧
    db2.find? (fun r => r.transaction_id == req.transaction_id) = some resp := by
  have htr : truthyStr req.transaction_id = true := by
    simp [truthyStr, hne]
  have htr2 : truthyStr req2.transaction_id = true := by
    rw [hsame]
    exact htr
  rcases hd : db.any (fun r => r.transaction_id == req.transaction_id) with hfalse | htrue
  · -- the first create succeeded, inserting the row
    rw [create_ok_shape db req g1 n1 t1 htr hd] at hfirst
    injection hfirst with hA hB
    injection hB with hC
    have hdb2 : db2 = db ++ [mkRow req req.transaction_id n1 t1] := hA.symm
    have hresp : resp = mkRow req req.transaction_id n1 t1 := hC.symm
    have hdup2 : db2.any (fun r => r.transaction_id == req2.transaction_id) = true := by
      rw [List.any_eq_true]
      refine ⟨mkRow req req.transaction_id n1 t1, ?_, ?_⟩
      · rw [hdb2]
        exact List.mem_append_right _ (List.mem_singleton.mpr rfl)
      · rw [hsame]
        simp [mkRow]
    rw [create_dup_shape db2 req2 g2 n2 t2 htr2 hdup2]
    refine ⟨rfl,
      ⟨⟨500, "Database error: " ++ ("Duplicate entry " ++ req2.transaction_id)⟩,
        rfl, rfl, by show (500:ℕ) ≠ 409; decide⟩, ?_, ?_⟩
    · rw [hresp]
      rfl
    · rw [hdb2, hresp, List.find?_append]
      have h1 : db.find? (fun r => r.transaction_id == req.transaction_id) = none := by
        rw [List.find?_eq_none]
        exact List.any_eq_false.mp hd
      rw [h1]
      simp [List.find?, mkRow]
  · -- impossible: the first create would have failed with the duplicate error
    rw [create_dup_shape db req g1 n1 t1 htr hd] at hfirst
    injection hfirst with hA hB
    exact absurd hB (by simp)

/-- Concrete first request used in the C3 counterexample and witness. -/
def reqT1 : TransactionRequest :=
  ⟨"t1", "Razorpay", "upi", 100, 0, 100, "pending"⟩

/-- C3 counterexample: the second create with the same explicit
transaction_id does fail, but with HTTP 500 ("Database error: Duplicate
entry t1"), not with Conflict (HTTP 409): the IntegrityError is swallowed
by the blanket except and re-raised as a generic 500. -/
theorem c3_counterexample_error_is_500_not_conflict :
    (create_transaction [] reqT1 "gen1" 1 0).2 =
      Except.ok (mkRow reqT1 "t1" 1 0) ∧
    (create_transaction (create_transaction [] reqT1 "gen1" 1 0).1 reqT1 "gen2" 2 5).2 =
      Except.error ⟨500, "Database error: Duplicate entry t1"⟩ ∧
    (500 : ℕ) ≠ 409 :=
  ⟨rfl, rfl, by decide⟩

/-- Witness for C3 amended on the concrete duplicate create. -/
theorem c3_duplicate_create_fails_store_unchanged_witness :
    reqT1.transaction_id ≠ "" ∧
    ((create_transaction [mkRow reqT1 "t1" 1 0] reqT1 "gen2" 2 5).1 =
        [mkRow reqT1 "t1" 1 0] ∧
      (∃ e, (create_transaction [mkRow reqT1 "t1" 1 0] reqT1 "gen2" 2 5).2 =
          Except.error e ∧ e.status_code = 500 ∧ e.status_code ≠ 409) ∧
      (mkRow reqT1 "t1" 1 0).transaction_id = reqT1.transaction_id ∧
      ([mkRow reqT1 "t1" 1 0]).find?
          (fun r => r.transaction_id == reqT1.transaction_id) =
        some (mkRow reqT1 "t1" 1 0)) :=
  ⟨by decide,
    c3_duplicate_create_fails_store_unchanged [] [mkRow reqT1 "t1" 1 0] reqT1 reqT1
      "gen1" "gen2" 1 2 0 5 (mkRow reqT1 "t1" 1 0) (by decide) rfl rfl⟩

/-- C9: on every successful update_transaction call, the store keeps its
size, rows with a different transaction_id pass through unchanged, and the
targeted rows keep id, gateway, payment_mode, amounts and created_at, get
updated_at refreshed to the request time, and receive exactly the truthy
supplied fields, the others keeping their old values. -/
theorem c9_update_writes_only_supplied_fields
    (db db2 : List TransactionRow) (tid status : String)
    (gtid gresp : Option String) (now : ℤ) (msg : String)
    (hok : update_transaction db tid status gtid gresp now = (db2, Except.ok msg)) :
    db2.length = db.length ∧
    (∀ r ∈ db, r.transaction_id ≠ tid → r ∈ db2) ∧
    (∀ r2 ∈ db2, r2.transaction_id ≠ tid → r2 ∈ db) ∧
    (∀ r2 ∈ db2, r2.transaction_id = tid → ∃ r ∈ db, r.transaction_id = tid ∧
      r2.id = r.id ∧ r2.gateway = r.gateway ∧ r2.payment_mode = r.payment_mode ∧
      r2.base_amount = r.base_amount ∧ r2.fee_amount = r.fee_amount ∧
      r2.total_amount = r.total_amount ∧ r2.created_at = r.created_at ∧
      r2.updated_at = now ∧
      r2.status = (if truthyStr status then status else r.status) ∧
      r2.gateway_transaction_id =
        (if truthyOpt gtid then gtid else r.gateway_transaction_id) ∧
      r2.gateway_response =
        (if truthyOpt gresp then gresp else r.gateway_response)) := by
  have hdb2 : db2 = db.map (fun r =>
      if r.transaction_id == tid then applyUpdate status gtid gresp now r else r) := by
    unfold update_transaction at hok
    rcases hb : update_transaction_body db tid status gtid gresp now with ⟨d, res⟩
    rw [hb] at hok
    cases res with
    | error e =>
        exact absurd ((Prod.mk.injEq _ _ _ _).mp hok).2 (by simp)
    | ok m =>
        have hd : d = db2 := ((Prod.mk.injEq _ _ _ _).mp hok).1
        simp only [update_transaction_body] at hb
        by_cases hfields : (truthyStr status || truthyOpt gtid || truthyOpt gresp) = true
        · rw [if_pos hfields] at hb
          by_cases hany : db.any (fun r => r.transaction_id == tid) = true
          · rw [if_pos hany] at hb
            rw [← hd, ← ((Prod.mk.injEq _ _ _ _).mp hb).1]
          · rw [if_neg hany] at hb
            exact absurd ((Prod.mk.injEq _ _ _ _).mp hb).2 (by simp)
        · rw [if_neg hfields] at hb
          exact absurd ((Prod.mk.injEq _ _ _ _).mp hb).2 (by simp)
  refine ⟨?_, ?_, ?_, ?_⟩
  · rw [hdb2, List.length_map]
  · intro r hr hne
    rw [hdb2]
    refine List.mem_map.mpr ⟨r, hr, ?_⟩
    rw [if_neg]
    intro hc
    exact hne (by simpa using hc)
  · intro r2 hr2 hne
    rw [hdb2] at hr2
    obtain ⟨r, hr, hfr⟩ := List.mem_map.mp hr2
    by_cases hc : (r.transaction_id == tid) = true
    · exfalso
      rw [if_pos hc] at hfr
      apply hne
      rw [← hfr]
      show r.transaction_id = tid
      simpa using hc
    · rw [if_neg hc] at hfr
      rw [← hfr]
      exact hr
  · intro r2 hr2 heq
    rw [hdb2] at hr2
    obtain ⟨r, hr, hfr⟩ := List.mem_map.mp hr2
    by_cases hc : (r.transaction_id == tid) = true
    · rw [if_pos hc] at hfr
      rw [← hfr]
      exact ⟨r, hr, by simpa using hc, rfl, rfl, rfl, rfl, rfl, rfl, rfl, rfl,
        rfl, rfl, rfl⟩
    · exfalso
      rw [if_neg hc] at hfr
      apply hc
      rw [hfr]
      simpa using heq

/-- A concrete pending row used by the C9 witness. -/
def rowW : TransactionRow :=
  ⟨1, "t1", "Razorpay", "upi", 100, 0, 100, "pending", none, none, 0, 0⟩

/-- The row of the C9 witness after the status update at time 5. -/
def rowW2 : TransactionRow :=
  ⟨1, "t1", "Razorpay", "upi", 100, 0, 100, "success", none, none, 0, 5⟩

/-- Witness for C9: a one-row store updated with status success at time 5. -/
theorem c9_update_writes_only_supplied_fields_witness :
    update_transaction [rowW] "t1" "success" none none 5 =
      ([rowW2], Except.ok "Transaction updated successfully") ∧
    ([rowW2].length = [rowW].length ∧
      (∀ r ∈ [rowW], r.transaction_id ≠ "t1" → r ∈ [rowW2]) ∧
      (∀ r2 ∈ [rowW2], r2.transaction_id ≠ "t1" → r2 ∈ [rowW]) ∧
      (∀ r2 ∈ [rowW2], r2.transaction_id = "t1" → ∃ r ∈ [rowW],
        r.transaction_id = "t1" ∧
        r2.id = r.id ∧ r2.gateway = r.gateway ∧ r2.payment_mode = r.payment_mode ∧
        r2.base_amount = r.base_amount ∧ r2.fee_amount = r.fee_amount ∧
        r2.total_amount = r.total_amount ∧ r2.created_at = r.created_at ∧
        r2.updated_at = 5 ∧
        r2.status = (if truthyStr "success" then "success" else r.status) ∧
        r2.gateway_transaction_id =
          (if truthyOpt none then none else r.gateway_transaction_id) ∧
        r2.gateway_response =
          (if truthyOpt none then none else r.gateway_response))) :=
  ⟨rfl, c9_update_writes_only_supplied_fields [rowW] [rowW2] "t1" "success"
    none none 5 "Transaction updated successfully" rfl⟩

end PaymentOrchestration
